import Mathlib

/- Verification of the pollination-dsl packaging core.

   The development shallowly embeds the two source modules
   pollination_dsl/common.py and pollination_dsl/package.py.  Python strings
   are embedded as Lean String values; the Python str operations used by the
   source (replace, split, strip, int parsing) are given fuel-based structural
   definitions so that every definition evaluates inside the kernel.  External
   collaborators (importlib metadata, the queenbee library, the filesystem)
   are embedded at their interface boundary, following the specification of
   the repository; each such definition carries a doc comment saying so. -/

/- ---------------------------------------------------------------------- -/
/- Python string primitives                                               -/
/- ---------------------------------------------------------------------- -/

/-- Boolean prefix test on character lists. -/
def startsWithChars : List Char → List Char → Bool
  | _, [] => true
  | [], _ :: _ => false
  | c :: cs, p :: ps => c = p && startsWithChars cs ps

/-- Fuel-based worker for string replacement; the fuel is the length of the
scanned list, which suffices because every step consumes at least one
character. -/
def replaceFuel (pat rep : List Char) : Nat → List Char → List Char
  | _, [] => []
  | 0, l => l
  | fuel + 1, c :: cs =>
    if startsWithChars (c :: cs) pat then
      rep ++ replaceFuel pat rep fuel (List.drop (pat.length - 1) cs)
    else
      c :: replaceFuel pat rep fuel cs

/-- Embedding of the Python str.replace method (all non-overlapping
occurrences, left to right).  The source never calls replace with an empty
pattern, so that case is returned unchanged. -/
def pyReplace (s pat rep : String) : String :=
  if pat.data.isEmpty then s
  else ⟨replaceFuel pat.data rep.data s.data.length s.data⟩

/-- Fuel-based worker for string splitting. -/
def splitFuel (sep : List Char) : Nat → List Char → List Char → List (List Char)
  | _, acc, [] => [acc.reverse]
  | 0, acc, l => [acc.reverse ++ l]
  | fuel + 1, acc, c :: cs =>
    if startsWithChars (c :: cs) sep then
      acc.reverse :: splitFuel sep fuel [] (List.drop (sep.length - 1) cs)
    else
      splitFuel sep fuel (c :: acc) cs

/-- Embedding of the Python str.split method with a non-empty separator. -/
def pySplitOn (s sep : String) : List String :=
  if sep.data.isEmpty then [s]
  else (splitFuel sep.data s.data.length [] s.data).map (fun l => ⟨l⟩)

/-- Whitespace test used by the strip embedding. -/
def isSpaceChar (c : Char) : Bool := c = ' ' || c = '\t' || c = '\n' || c = '\r'

/-- Embedding of the Python str.strip method. -/
def pyStrip (s : String) : String :=
  ⟨((s.data.dropWhile isSpaceChar).reverse.dropWhile isSpaceChar).reverse⟩

/-- Numeric value of a decimal digit character. -/
def digitVal (c : Char) : Option Nat :=
  if '0' ≤ c ∧ c ≤ '9' then some (c.toNat - 48) else none

/-- Decimal value of a character list, or none when some character is not a
digit or the list is empty. -/
def digitsVal : List Char → Option Nat
  | [] => none
  | [c] => digitVal c
  | c :: cs =>
    match digitVal c, digitsVal cs with
    | some d, some r => some (d * 10 ^ cs.length + r)
    | _, _ => none

/-- Embedding of the Python int constructor on the strings the source feeds
it: plain non-negative decimal numerals.  A non-numeral yields none, which
the embedded code turns into the ValueError the Python int raises. -/
def pyInt (s : String) : Option Int := (digitsVal s.data).map Int.ofNat

/-- Python attaches strings with str.join; only the variant the source uses
is embedded: joining a list with a one-string separator. -/
def pyJoin (sep : String) : List String → String
  | [] => ""
  | [s] => s
  | s :: rest => s ++ sep ++ pyJoin sep rest

/- ---------------------------------------------------------------------- -/
/- Python exceptions raised or caught by the embedded code                 -/
/- ---------------------------------------------------------------------- -/

/-- Exceptions that the embedded source raises or catches.  The
valueErrorWrap constructor models a ValueError raised inside an except
block: Python chains the original exception as the cause, so the cause is
carried structurally.  Messages elide Python quote characters. -/
inductive PyErr where
  | typeError (msg : String)
  | assertionError (msg : String)
  | keyError (key : String)
  | valueError (msg : String)
  | valueErrorWrap (msg : String) (cause : PyErr)
  | moduleNotFoundError (msg : String)
  | fileNotFoundError
  | distributionNotFound (name : String)
  deriving DecidableEq

/- ---------------------------------------------------------------------- -/
/- Dictionary helpers (Python dict on string keys)                         -/
/- ---------------------------------------------------------------------- -/

/-- Python dict assignment d[k] = v: replaces the value when the key exists,
otherwise appends, preserving insertion order. -/
def dictSet (l : List (String × String)) (k v : String) : List (String × String) :=
  if l.any (fun p => p.1 = k) then
    l.map (fun p => if p.1 = k then (k, v) else p)
  else
    l ++ [(k, v)]

/-- Python dict lookup d.get(k). -/
def dictGet (l : List (String × String)) (k : String) : Option String :=
  (l.find? (fun p => p.1 = k)).map (fun p => p.2)

/-- Python membership test k in d. -/
def dictHas (l : List (String × String)) (k : String) : Bool :=
  l.any (fun p => p.1 = k)

/- ---------------------------------------------------------------------- -/
/- common.py: requirement pinning and docker image resolution              -/
/- ---------------------------------------------------------------------- -/

/-- Requirement information of one installed distribution, as the two places
the source reads it from.  requiresTxt models the parsed content of the
requires.txt metadata file when it exists (pkg_resources path): pairs of
project name and specifier string such as >=1.2.3.  requiresDist models the
raw Requires-Dist metadata entries (importlib_metadata fallback path), such
as honeybee-radiance (>=1.2.3). -/
structure PkgReqs where
  requiresTxt : Option (List (String × String))
  requiresDist : List String

/-- Specifier cleanup applied by the source: drop =, > and < characters
(common.py lines 61-63 and 66-68). -/
def cleanSpecifier (s : String) : String :=
  pyReplace (pyReplace (pyReplace s "=" "") ">" "") "<" ""

/-- One iteration of the Requires-Dist parsing loop of the metadata fallback
path (common.py lines 59-64): split the entry into name and version on the
separator — the tuple unpacking raising ValueError when the entry does not
split into exactly two parts — then clean the version and store it under the
name with dict assignment. -/
def requiresDistStep (acc : List (String × String)) (s : String) :
    Except PyErr (List (String × String)) :=
  match pySplitOn s " (" with
  | [n, v] => .ok (dictSet acc n (pyStrip (pyReplace (cleanSpecifier v) ")" "")))
  | _ => .error (.valueError "not enough values to unpack")

/-- Embedding of get_requirement_version (common.py lines 48-74).  The
installed distributions are supplied as a map from distribution name to its
requirement information; a missing distribution models the uncaught
DistributionNotFound / PackageNotFoundError of the lookup calls.  A
Requires-Dist entry that does not split on the separator into exactly a name
and a version raises the ValueError of the tuple unpacking on line 60. -/
def get_requirement_version (dists : String → Option PkgReqs)
    (package_name dependency_name : String) : Except PyErr String :=
  let fixed_name := pyReplace package_name "pollination." "pollination_"
  let dep := pyReplace dependency_name "_" "-"
  match dists fixed_name with
  | none => .error (.distributionNotFound fixed_name)
  | some d =>
    let requirements : Except PyErr (List (String × String)) :=
      match d.requiresTxt with
      | some rt =>
        .ok (rt.foldl (fun acc p => dictSet acc p.1 (cleanSpecifier p.2)) [])
      | none => d.requiresDist.foldlM requiresDistStep []
    match requirements with
    | .error e => .error e
    | .ok reqs =>
      match dictGet reqs dep with
      | none =>
        .error (.assertionError (dep ++ " is not a requirement for " ++ package_name ++ "."))
      | some v => .ok v

/-- Result of docker image resolution: the image id together with the
warning surfaced on the fallback path (carrying the caught exception). -/
structure DockerImageResult where
  image : String
  warning : Option PyErr
  deriving DecidableEq

/-- Embedding of get_docker_image_from_dependency (common.py lines 77-101).
A FileNotFoundError or AssertionError from the version lookup downgrades to
the latest tag with a warning; any other exception propagates.  The owner
argument is unused, as in the source. -/
def get_docker_image_from_dependency (dists : String → Option PkgReqs)
    (package dependency owner : String) : Except PyErr DockerImageResult :=
  match get_requirement_version dists package dependency with
  | .ok image_version =>
    .ok { image := "ladybugtools/" ++ dependency ++ ":" ++ image_version, warning := none }
  | .error e =>
    match e with
    | .fileNotFoundError =>
      .ok { image := "ladybugtools/" ++ dependency ++ ":latest", warning := some (.fileNotFoundError) }
    | .assertionError m =>
      .ok { image := "ladybugtools/" ++ dependency ++ ":latest",
            warning := some (.assertionError m) }
    | other => .error other

/-- Embedding of _get_package_version (common.py lines 176-188) over the
Version string read from the package metadata.  A version with at most
three dot-separated components is returned unchanged; otherwise the first
three components are kept and the third is decremented, the int call on the
third component raising ValueError when it is not a numeral. -/
def _get_package_version (version : String) : Except PyErr String :=
  let xyz := pySplitOn version "."
  if xyz.length ≤ 3 then .ok version
  else
    match xyz with
    | x :: y :: z :: _ =>
      match pyInt z with
      | none => .error (.valueError ("invalid literal for int: " ++ z))
      | some n => .ok (x ++ "." ++ y ++ "." ++ toString (n - 1))
    | _ => .error (.valueError "unreachable: a list of length above three has three heads")

/- ---------------------------------------------------------------------- -/
/- Queenbee data model consumed by package.py                              -/
/- ---------------------------------------------------------------------- -/

/-- Queenbee DAG object as consulted by the embedded code: the name field,
which _load_recipe overwrites with main, and an abstract body standing for
every other field of the queenbee DAG schema (inputs, outputs, tasks), none
of which the embedded code reads or writes. -/
structure QBDag where
  name : String
  body : String
  deriving DecidableEq

/-- Entry of the _dependencies plugin and recipe collections of a dsl DAG
object: the name and tag dictionary read by _load_recipe. -/
structure DepInfo where
  name : String
  tag : String
  deriving DecidableEq

/-- Nested dsl DAG collected by the dependency collector; the embedded code
only reads its queenbee projection (package.py line 141). -/
structure SubDag where
  queenbee : QBDag
  deriving DecidableEq

/-- Contents of the _dependencies attribute of a dsl DAG object, produced by
the dependency collector of the dsl (dag module, outside the embedded
sources): collected nested dags in collection order and the plugin and
recipe dependency records. -/
structure DagDeps where
  dag : List SubDag
  plugin : List DepInfo
  recipe : List DepInfo
  deriving DecidableEq

/-- Entry point DAG object of a recipe package as read by _load_recipe: its
queenbee projection and its _dependencies attribute. -/
structure DAGObj where
  queenbee : QBDag
  _dependencies : DagDeps
  deriving DecidableEq

/-- Queenbee dependency kinds. -/
inductive DependencyKind where
  | plugin
  | recipe
  deriving DecidableEq

/-- Queenbee Dependency record as constructed by _load_recipe (package.py
lines 145-156). -/
structure Dependency where
  kind : DependencyKind
  name : String
  tag : String
  source : String
  deriving DecidableEq

/-- Package metadata dictionary after MetaData.parse_obj; schema validation
is external to the embedded sources, so the parsed object is the merged
dictionary itself. -/
def MetaDict : Type := List (String × String)

/-- Queenbee Recipe as constructed by _load_recipe (package.py line 158). -/
structure Recipe where
  metadata : MetaDict
  dependencies : List Dependency
  flow : List QBDag

/-- Queenbee Plugin as constructed by _load_plugin (package.py line 109).
The config payload and the function templates are carried abstractly: the
embedded code moves them around but never inspects them. -/
structure Plugin where
  config : String
  metadata : MetaDict
  functions : List String

/-- Loaded queenbee definition: the two shapes load returns with the default
baked argument.  The baked branch of _load_recipe delegates wholly to the
external queenbee BakedRecipe.from_recipe and is exercised by no claim, so
load is embedded at its baked equals False instantiation, the one the
package function uses (package.py line 197). -/
inductive QBDef where
  | plugin (p : Plugin)
  | recipe (r : Recipe)

/-- Contents of the __pollination__ dictionary of a package module: the
config payload of a plugin, the entry point factory of a recipe (a callable
returning the entry DAG object, none modelling a falsy result), and the
remaining plain entries.  Presence of the config and entry point keys is
the presence of the corresponding option. -/
structure QBInfo where
  config : Option String
  entryPoint : Option (Unit → Option DAGObj)
  fields : List (String × String)

/-- Python module object as consulted by load: its __pollination__ attribute
when present. -/
structure PyModule where
  pollination : Option QBInfo

/-- Python interpreter state relevant to the embedding: the live module
objects keyed by module name (the sys.modules cache), whose shared
__pollination__ dictionaries the embedded code mutates in place. -/
structure ProcState where
  modules : List (String × PyModule)

/-- Lookup of a live module. -/
def stateLookup (st : ProcState) (k : String) : Option PyModule :=
  (st.modules.find? (fun p => p.1 = k)).map (fun p => p.2)

/-- Update of a live module (insert or replace, preserving order). -/
def stateSet (st : ProcState) (k : String) (m : PyModule) : ProcState :=
  if st.modules.any (fun p => p.1 = k) then
    ⟨st.modules.map (fun p => if p.1 = k then (k, m) else p)⟩
  else
    ⟨st.modules ++ [(k, m)]⟩

/-- Queenbee PackageVersion handle as consulted by package: its url field
naming the artifact file (package.py line 214). -/
structure PackageVersionModel where
  url : String
  deriving DecidableEq

/-- Repository index content.  Modelled from the spec: queenbee
RepositoryIndex is external to the embedded sources; per the spec the index
enumerates the packages of both stores, so it is embedded as the two lists
of artifact file names. -/
structure RepositoryIndex where
  plugins : List String
  recipes : List String
  deriving DecidableEq

/-- On-disk state of the local repository directory: existence flags of the
root and the two store folders, the index file content when present, and
the artifact files of each store as pairs of file name and bytes. -/
structure RepoFS where
  root : Bool
  pluginsDir : Bool
  recipesDir : Bool
  indexFile : Option RepositoryIndex
  pluginFiles : List (String × String)
  recipeFiles : List (String × String)
  deriving DecidableEq

/-- Modelled from the spec: queenbee RepositoryIndex.from_folder is external
to the embedded sources; the spec states that it scans both stores and
regenerates the index from scratch, so it returns exactly the artifact file
names physically present in the two stores. -/
def from_folder (fs : RepoFS) : RepositoryIndex :=
  { plugins := fs.pluginFiles.map Prod.fst
    recipes := fs.recipeFiles.map Prod.fst }

/-- External collaborators of the embedded sources, supplied as an
environment: module resolution (importlib), the package metadata provider
(importlib_metadata, as consumed by _get_package_data), the reflective
function template scan of _load_plugin submodules (pkgutil), the readme
provider (_get_package_readme over importlib_metadata), and queenbee
PackageVersion.package_resource serializing a definition plus readme into a
versioned artifact, which may raise. -/
structure Env where
  modules : String → Option PyModule
  packageData : String → List (String × Option String)
  functionsOf : String → List String
  readmeOf : String → String
  packageResource : QBDef → String → Except PyErr (PackageVersionModel × String)

/- ---------------------------------------------------------------------- -/
/- package.py: repository initialization                                   -/
/- ---------------------------------------------------------------------- -/

/-- Repository path derived from the home folder (package.py lines 26-27). -/
def repoPath (home : String) : String := home ++ "/.queenbee/pollination-dsl"

/-- URI of the repository path as produced by as_uri (package.py line 148). -/
def repoUri (home : String) : String := "file://" ++ repoPath home

/-- Embedding of _init_repo (package.py lines 19-41): create the root and
the two store folders (mkdir with exist_ok), and only when the index file
does not exist, write the index scanned from the folder.  Returns the
repository path together with the new filesystem state. -/
def _init_repo (home : String) (fs : RepoFS) : String × RepoFS :=
  let fs1 : RepoFS := { fs with root := true, pluginsDir := true, recipesDir := true }
  let fs2 : RepoFS :=
    if fs1.indexFile.isSome then fs1
    else { fs1 with indexFile := some (from_folder fs1) }
  (repoPath home, fs2)

/- ---------------------------------------------------------------------- -/
/- common.py: metadata construction (mutates the module dictionary)        -/
/- ---------------------------------------------------------------------- -/

/-- Package type selector of _get_meta_data. -/
inductive PkgType where
  | plugin
  | recipe
  deriving DecidableEq

/-- The merge loop of _get_meta_data (common.py lines 219-225): every
metadata entry with a value is written into the dictionary, except that the
name entry is skipped when the dictionary already provides one; the check
runs against the dictionary as mutated so far, as in the source. -/
def mergePackageData (fields : List (String × String))
    (package_data : List (String × Option String)) : List (String × String) :=
  package_data.foldl
    (fun acc kv =>
      match kv.2 with
      | none => acc
      | some v =>
        if kv.1 = "name" ∧ dictHas acc "name" then acc
        else dictSet acc kv.1 v)
    fields

/-- Embedding of _get_meta_data (common.py lines 209-229): pops the config
key (plugin) or the entry_point key (recipe) from the shared __pollination__
dictionary, raising KeyError when it is absent, then merges the package
metadata into the dictionary in place.  Returns the parsed metadata together
with the mutated dictionary; MetaData.parse_obj validation is external, so
the parsed metadata is the merged dictionary. -/
def _get_meta_data (package_data : List (String × Option String))
    (info : QBInfo) (package_type : PkgType) : Except PyErr (MetaDict × QBInfo) :=
  match package_type with
  | .plugin =>
    match info.config with
    | none => .error (.keyError "config")
    | some _ =>
      let info1 : QBInfo := { info with config := none }
      let merged := mergePackageData info1.fields package_data
      .ok (merged, { info1 with fields := merged })
  | .recipe =>
    match info.entryPoint with
    | none => .error (.keyError "entry_point")
    | some _ =>
      let info1 : QBInfo := { info with entryPoint := none }
      let merged := mergePackageData info1.fields package_data
      .ok (merged, { info1 with fields := merged })

/- ---------------------------------------------------------------------- -/
/- package.py: loading plugins and recipes                                 -/
/- ---------------------------------------------------------------------- -/

/-- Embedding of _load_plugin (package.py lines 78-110): read the config
payload from the __pollination__ dictionary (KeyError when absent — load
only enters this branch when it is present), build the metadata (mutating
the dictionary), collect the function templates through the external
submodule scan, and assemble the Plugin.  Returns the result together with
the mutated dictionary. -/
def _load_plugin (env : Env) (package_name : String) (info : QBInfo) :
    Except PyErr Plugin × QBInfo :=
  match info.config with
  | none => (.error (.keyError "config"), info)
  | some cfg =>
    match _get_meta_data (env.packageData package_name) info .plugin with
    | .error e => (.error e, info)
    | .ok (metadata, info2) =>
      (.ok { config := cfg, metadata := metadata, functions := env.functionsOf package_name },
       info2)

/-- Embedding of _load_recipe at its baked equals False instantiation
(package.py lines 113-165).  The entry point factory is fetched with a
defaulting get and immediately called: when the key is absent the call
applies None and raises TypeError before the assertion on line 130 is ever
reached; when the factory returns a falsy value the assertion raises with
the message of the source (which misspells entry_point as enetry_point).
Then the metadata is built (mutating the dictionary), the entry DAG is
renamed to main and concatenated with the collected nested dags, the local
repository is initialized, and the dependency records are built with the
repository URI as source.  Returns the result, the mutated dictionary and
the filesystem state. -/
def _load_recipe (env : Env) (home : String) (fs : RepoFS)
    (package_name : String) (info : QBInfo) :
    Except PyErr Recipe × QBInfo × RepoFS :=
  match info.entryPoint with
  | none => (.error (.typeError "NoneType object is not callable"), info, fs)
  | some factory =>
    match factory () with
    | none =>
      (.error (.assertionError
        (package_name ++ " __pollination__ info is missing the enetry_point key.")),
       info, fs)
    | some main_dag =>
      match _get_meta_data (env.packageData package_name) info .recipe with
      | .error e => (.error e, info, fs)
      | .ok (metadata, info2) =>
        let qb_dag : QBDag := { main_dag.queenbee with name := "main" }
        let dags := qb_dag :: main_dag._dependencies.dag.map (fun d => d.queenbee)
        let fs2 := (_init_repo home fs).2
        let plugins := main_dag._dependencies.plugin.map
          (fun p => Dependency.mk .plugin p.name p.tag (repoUri home))
        let recipes := main_dag._dependencies.recipe.map
          (fun r => Dependency.mk .recipe r.name r.tag (repoUri home))
        (.ok { metadata := metadata, dependencies := plugins ++ recipes, flow := dags },
         info2, fs2)

/-- Which branch of load ran. -/
inductive Branch where
  | plugin
  | recipe
  deriving DecidableEq

/-- Module resolution with the sys.modules cache: an already imported module
is returned from the interpreter state, otherwise the import binds the
module supplied by the environment into the state. -/
def getModule (env : Env) (st : ProcState) (k : String) :
    Option (PyModule × ProcState) :=
  match stateLookup st k with
  | some m => some (m, st)
  | none =>
    match env.modules k with
    | some m => some (m, stateSet st k m)
    | none => none

/-- Error message of import_module (common.py lines 25-28), quote characters
elided. -/
def noModuleMsg (package_name : String) : String :=
  "No module named " ++ package_name ++ ". Did you forget to install the module?"

/-- Embedding of import_module (common.py lines 19-45): dashes become
underscores; when the direct import fails and the name has several
underscore segments, the namespaced form namespace.rest is tried.  Returns
the module name the interpreter knows the module under, the module object
and the interpreter state. -/
def import_module (env : Env) (st : ProcState) (name : String) :
    Except PyErr (String × PyModule × ProcState) :=
  let package_name := pyReplace name "-" "_"
  match getModule env st package_name with
  | some (m, st1) => .ok (package_name, m, st1)
  | none =>
    let segments := pySplitOn package_name "_"
    if segments.length ≤ 1 then .error (.moduleNotFoundError (noModuleMsg package_name))
    else
      let key := segments.headD "" ++ "." ++ pyJoin "_" (segments.drop 1)
      match getModule env st key with
      | some (m, st1) => .ok (key, m, st1)
      | none => .error (.moduleNotFoundError (noModuleMsg package_name))

/-- Outcome of load: the branch that ran (none when the module failed to
resolve), the loaded definition or the exception, the interpreter state and
the filesystem state (the recipe branch initializes the repository). -/
structure LoadOutcome where
  branch : Option Branch
  result : Except PyErr QBDef
  state : ProcState
  fs : RepoFS

/-- Embedding of load (package.py lines 168-184) at its baked equals False
instantiation: import the module, require the __pollination__ attribute,
and dispatch on the presence of the config key — present means plugin,
absent means recipe.  Either branch writes the mutated __pollination__
dictionary back into the shared module object. -/
def load (env : Env) (home : String) (fs : RepoFS) (st : ProcState)
    (package_name : String) : LoadOutcome :=
  match import_module env st package_name with
  | .error e => ⟨none, .error e, st, fs⟩
  | .ok (key, m, st1) =>
    match m.pollination with
    | none =>
      ⟨none, .error (.assertionError "Failed to find __pollination__ info in __init__.py"),
       st1, fs⟩
    | some qb_info =>
      if qb_info.config.isSome then
        match _load_plugin env key qb_info with
        | (.error e, info2) => ⟨some .plugin, .error e, stateSet st1 key ⟨some info2⟩, fs⟩
        | (.ok p, info2) =>
          ⟨some .plugin, .ok (.plugin p), stateSet st1 key ⟨some info2⟩, fs⟩
      else
        match _load_recipe env home fs key qb_info with
        | (.error e, info2, fs2) =>
          ⟨some .recipe, .error e, stateSet st1 key ⟨some info2⟩, fs2⟩
        | (.ok r, info2, fs2) =>
          ⟨some .recipe, .ok (.recipe r), stateSet st1 key ⟨some info2⟩, fs2⟩

/- ---------------------------------------------------------------------- -/
/- package.py: the package entry point                                     -/
/- ---------------------------------------------------------------------- -/

/-- The store subfolder of a loaded definition (package.py lines 199-204;
the TypeError arm of the source is unreachable here because load at baked
equals False only returns plugins and recipes). -/
def qbType : QBDef → String
  | .plugin _ => "plugin"
  | .recipe _ => "recipe"

/-- Write an artifact file into the store of the given definition kind,
overwriting any file of the same name, as write_bytes does (package.py
lines 214-216). -/
def writeStore (fs : RepoFS) (d : QBDef) (url bytes : String) : RepoFS :=
  match d with
  | .plugin _ => { fs with pluginFiles := dictSet fs.pluginFiles url bytes }
  | .recipe _ => { fs with recipeFiles := dictSet fs.recipeFiles url bytes }

/-- Result of the package entry point: the raised exception when it fails,
together with the filesystem and interpreter state it leaves behind. -/
structure PackageResult where
  error : Option PyErr
  fs : RepoFS
  state : ProcState

/-- Embedding of package (package.py lines 187-220): initialize the
repository, load the definition (the readme argument is never consulted),
serialize it through the external package_resource together with the readme
fetched from the package metadata — a failure there is re-raised as a
ValueError carrying the cause — then write the artifact into the matching
store and regenerate the index from a scan of the repository folder. -/
def package (env : Env) (home : String) (st : ProcState)
    (package_name : String) (readme : Option String) (fs : RepoFS) : PackageResult :=
  let fs1 := (_init_repo home fs).2
  let lo := load env home fs1 st package_name
  match lo.result with
  | .error e => ⟨some e, lo.fs, lo.state⟩
  | .ok qb_obj =>
    match env.packageResource qb_obj (env.readmeOf package_name) with
    | .error e =>
      ⟨some (.valueErrorWrap
        ("Failed to package " ++ package_name ++ " " ++ qbType qb_obj) e),
       lo.fs, lo.state⟩
    | .ok (plugin_version, bytes) =>
      let fs2 := writeStore lo.fs qb_obj plugin_version.url bytes
      let fs3 : RepoFS := { fs2 with indexFile := some (from_folder fs2) }
      ⟨none, fs3, lo.state⟩

/- ---------------------------------------------------------------------- -/
/- Dependency collector (spec-modelled)                                    -/
/- ---------------------------------------------------------------------- -/

/-- Modelled from the spec: the dependency collector that populates the
_dependencies attribute of a dsl DAG object lives in the dag module of the
repository, which is not among the embedded sources.  Per the spec it
returns a deduplicated dependency set — a second reference to the same
name is treated as already satisfied and not duplicated — embedded as
first-seen-wins deduplication by name, preserving discovery order. -/
def collectDedupByName (l : List DepInfo) : List DepInfo :=
  l.foldl (fun acc d => if acc.any (fun p => p.name = d.name) then acc else acc ++ [d]) []

/- ---------------------------------------------------------------------- -/
/- Concrete inputs used by witnesses and counterexamples                   -/
/- ---------------------------------------------------------------------- -/

/-- Empty repository filesystem: nothing exists yet. -/
def fsEmpty : RepoFS :=
  { root := false, pluginsDir := false, recipesDir := false,
    indexFile := none, pluginFiles := [], recipeFiles := [] }

/-- A plugin package module dictionary: a config payload and no entry
point. -/
def infoPlugin : QBInfo := { config := some "cfg", entryPoint := none, fields := [] }

/-- Environment exposing one installed plugin package named m, whose
serialization succeeds. -/
def envOk : Env :=
  { modules := fun k => if k = "m" then some ⟨some infoPlugin⟩ else none
    packageData := fun _ => []
    functionsOf := fun _ => []
    readmeOf := fun _ => "readme"
    packageResource := fun _ _ => .ok (⟨"m-1.0.0.tgz"⟩, "bytes") }

/-- Environment exposing the same plugin package, whose serialization
raises. -/
def envFail : Env :=
  { modules := fun k => if k = "m" then some ⟨some infoPlugin⟩ else none
    packageData := fun _ => []
    functionsOf := fun _ => []
    readmeOf := fun _ => "readme"
    packageResource := fun _ _ => .error .fileNotFoundError }

/-- A recipe module dictionary with no entry_point key at all. -/
def infoNoEntry : QBInfo := { config := none, entryPoint := none, fields := [] }

/-- Entry DAG object with one nested collected DAG and no external
dependencies. -/
def dagEntry : DAGObj :=
  { queenbee := ⟨"entry", "b"⟩
    _dependencies := { dag := [⟨⟨"sub", "c"⟩⟩], plugin := [], recipe := [] } }

/-- Entry point factory returning the entry DAG. -/
def entryFactory : Unit → Option DAGObj := fun _ => some dagEntry

/-- Recipe module dictionary exposing the entry DAG. -/
def infoRecipe : QBInfo := { config := none, entryPoint := some entryFactory, fields := [] }

/-- Entry DAG whose collector output references the plugin package p twice,
deduplicated by the collector to a single record. -/
def dagDup : DAGObj :=
  { queenbee := ⟨"entry", "b"⟩
    _dependencies :=
      { dag := []
        plugin := [⟨"p", "1"⟩]
        recipe := [] } }

/-- Entry point factory returning the duplicated-reference entry DAG. -/
def dupFactory : Unit → Option DAGObj := fun _ => some dagDup

/-- Recipe module dictionary exposing the duplicated-reference entry DAG. -/
def infoDup : QBInfo := { config := none, entryPoint := some dupFactory, fields := [] }

/-- Distribution map with a malformed Requires-Dist entry lacking a version
specifier, as metadata of packages without version pins commonly looks. -/
def distsBad : String → Option PkgReqs := fun k =>
  if k = "pollination-x" then some { requiresTxt := none, requiresDist := ["honeybee-radiance"] }
  else none

/-- Distribution map with a requires.txt pinning honeybee-radiance. -/
def distsPinned : String → Option PkgReqs := fun k =>
  if k = "pollination-hr" then
    some { requiresTxt := some [("honeybee-radiance", ">=0.5.2")], requiresDist := [] }
  else none

/-- Distribution map with a requires.txt not mentioning honeybee-radiance. -/
def distsUnpinned : String → Option PkgReqs := fun k =>
  if k = "pollination-hr" then
    some { requiresTxt := some [("other-dep", ">=1.0.0")], requiresDist := [] }
  else none

/-- Distribution map with no requires.txt whose Requires-Dist entry pins
honeybee-radiance with a parenthesized version. -/
def distsDistPinned : String → Option PkgReqs := fun k =>
  if k = "pollination-hr" then
    some { requiresTxt := none, requiresDist := ["honeybee-radiance (>=0.5.2)"] }
  else none

/-- Distribution map with no requires.txt whose Requires-Dist entries are
all versioned but do not mention honeybee-radiance. -/
def distsDistUnpinned : String → Option PkgReqs := fun k =>
  if k = "pollination-hr" then
    some { requiresTxt := none, requiresDist := ["other-dep (>=1.0.0)"] }
  else none

/-- Repository location holding a stray artifact file but no index file. -/
def fsStray : RepoFS :=
  { root := true, pluginsDir := true, recipesDir := true,
    indexFile := none, pluginFiles := [("a.tgz", "bytes")], recipeFiles := [] }

/-- Environment exposing one installed plugin package named pkg, used by the
shared-state claim. -/
def envShared : Env :=
  { modules := fun k => if k = "pkg" then some ⟨some infoPlugin⟩ else none
    packageData := fun _ => []
    functionsOf := fun _ => []
    readmeOf := fun _ => ""
    packageResource := fun _ _ => .error .fileNotFoundError }

/- ---------------------------------------------------------------------- -/
/- Helper lemmas                                                           -/
/- ---------------------------------------------------------------------- -/

/-- Initialization does not touch artifact files. -/
theorem init_repo_pluginFiles (home : String) (fs : RepoFS) :
    (_init_repo home fs).2.pluginFiles = fs.pluginFiles := by
  cases h : fs.indexFile <;> simp [_init_repo, h]

/-- Initialization does not touch artifact files. -/
theorem init_repo_recipeFiles (home : String) (fs : RepoFS) :
    (_init_repo home fs).2.recipeFiles = fs.recipeFiles := by
  cases h : fs.indexFile <;> simp [_init_repo, h]

/-- Initialization always leaves an index file behind. -/
theorem init_repo_indexFile_isSome (home : String) (fs : RepoFS) :
    (_init_repo home fs).2.indexFile.isSome := by
  cases h : fs.indexFile <;> simp [_init_repo, h]

/-- Initialization keeps an existing index file unchanged. -/
theorem init_repo_indexFile_some (home : String) (fs : RepoFS) (i : RepositoryIndex)
    (h : fs.indexFile = some i) : (_init_repo home fs).2.indexFile = some i := by
  simp [_init_repo, h]

/-- Running initialization twice equals running it once. -/
theorem init_repo_twice (home : String) (fs : RepoFS) :
    _init_repo home ((_init_repo home fs).2) = _init_repo home fs := by
  cases h : fs.indexFile <;> simp [_init_repo, h]

/-- Loading from an already initialized repository leaves the filesystem
exactly as initialized: the plugin branch never touches it and the recipe
branch re-runs the idempotent initialization. -/
theorem load_fs_initialized (env : Env) (home : String) (fs : RepoFS)
    (st : ProcState) (name : String) :
    (load env home ((_init_repo home fs).2) st name).fs = (_init_repo home fs).2 := by
  unfold load
  cases him : import_module env st name with
  | error e => rfl
  | ok v =>
    obtain ⟨key, m, st1⟩ := v
    dsimp only
    cases hp : m.pollination with
    | none => rfl
    | some qb_info =>
      by_cases hc : qb_info.config.isSome
      · simp only [hc, if_true]
        rcases hlp : _load_plugin env key qb_info with ⟨res, info2⟩
        cases res <;> rfl
      · simp only [hc, if_false]
        rcases hlr : _load_recipe env home ((_init_repo home fs).2) key qb_info
          with ⟨res, info2, fs2⟩
        have hfs2 : fs2 = (_init_repo home fs).2 := by
          unfold _load_recipe at hlr
          cases he : qb_info.entryPoint with
          | none => rw [he] at hlr; cases hlr; rfl
          | some factory =>
            rw [he] at hlr
            dsimp only at hlr
            cases hd : factory () with
            | none => rw [hd] at hlr; cases hlr; rfl
            | some main_dag =>
              rw [hd] at hlr
              dsimp only at hlr
              cases hm : _get_meta_data (env.packageData key) qb_info .recipe with
              | error e2 => rw [hm] at hlr; cases hlr; rfl
              | ok v2 =>
                obtain ⟨md, info3⟩ := v2
                rw [hm] at hlr
                dsimp only at hlr
                cases hlr
                rw [init_repo_twice]
        cases res <;> exact hfs2

/-- Folding the first-seen-wins deduplication step keeps the names of the
accumulator without duplicates. -/
theorem collectDedup_fold_names_nodup (l : List DepInfo) :
    ∀ acc : List DepInfo, (acc.map DepInfo.name).Nodup →
      (((l.foldl (fun acc d => if acc.any (fun p => p.name = d.name) then acc else acc ++ [d]) acc).map
        DepInfo.name).Nodup) := by
  induction l with
  | nil => intro acc h; simpa using h
  | cons d t ih =>
    intro acc h
    simp only [List.foldl_cons]
    by_cases hmem : acc.any (fun p => p.name = d.name)
    · rw [if_pos hmem]; exact ih acc h
    · rw [if_neg hmem]
      apply ih
      rw [List.map_append]
      simp only [List.map_cons, List.map_nil]
      rw [List.nodup_append]
      refine ⟨h, List.nodup_singleton _, ?_⟩
      intro a ha hb
      simp only [List.mem_singleton] at hb
      obtain ⟨p, hp, hpa⟩ := List.mem_map.1 ha
      apply hmem
      rw [List.any_eq_true]
      exact ⟨p, hp, by simp [hpa, hb]⟩

/-- The names produced by the spec-modelled collector carry no duplicate. -/
theorem collectDedupByName_names_nodup (l : List DepInfo) :
    ((collectDedupByName l).map DepInfo.name).Nodup := by
  unfold collectDedupByName
  exact collectDedup_fold_names_nodup l [] (by simp)

/- ---------------------------------------------------------------------- -/
/- Claim theorems                                                          -/
/- ---------------------------------------------------------------------- -/

/-- C5 counterexample: the version string 1.2.3rc1 carries a pre-release
suffix, yet _get_package_version returns it unchanged — the result is
neither three-component semantic nor normalized by decrementing the patch
digit, refuting the claim as stated for this input. -/
theorem get_package_version_keeps_prerelease_suffix :
    _get_package_version "1.2.3rc1" = .ok "1.2.3rc1" ∧
    _get_package_version "1.2.3rc1" ≠ .ok "1.2.2" ∧
    (pySplitOn "1.2.3rc1" ".").length = 3 := by
  refine ⟨rfl, ?_, rfl⟩
  intro h
  rw [show _get_package_version "1.2.3rc1" = Except.ok "1.2.3rc1" from rfl] at h
  exact absurd (Except.ok.inj h) (by decide)

/-- C5 amended: a version whose dot-split has at most three components is
returned unchanged by _get_package_version (even when it carries a
pre-release suffix such as rc1); a version with four or more components and
a numeral third component is truncated to the first three components with
the patch digit decremented. -/
theorem get_package_version_normalization :
    (∀ version : String, (pySplitOn version ".").length ≤ 3 →
      _get_package_version version = .ok version) ∧
    (∀ (version x y z : String) (rest : List String) (n : Int),
      pySplitOn version "." = x :: y :: z :: rest → rest ≠ [] → pyInt z = some n →
      _get_package_version version = .ok (x ++ "." ++ y ++ "." ++ toString (n - 1))) := by
  constructor
  · intro v h
    unfold _get_package_version
    rw [if_pos h]
  · intro v x y z rest n hsplit hrest hint
    have hlen : ¬ (pySplitOn v ".").length ≤ 3 := by
      rw [hsplit]
      cases rest with
      | nil => exact absurd rfl hrest
      | cons a t => simp [List.length]
    unfold _get_package_version
    rw [if_neg hlen, hsplit]
    dsimp only
    rw [hint]

/-- C5 witness: the documented scenario 1.2.3.4 normalizes to 1.2.2, and a
two-component version is returned unchanged. -/
theorem get_package_version_normalization_witness :
    _get_package_version "1.2.3.4" = .ok "1.2.2" ∧
    _get_package_version "0.3" = .ok "0.3" := by
  constructor
  · exact get_package_version_normalization.2 "1.2.3.4" "1" "2" "3" ["4"] 3 rfl
      (by decide) rfl
  · exact get_package_version_normalization.1 "0.3" (by decide)

/-- C7 counterexample: a Requires-Dist entry with no version pin at all (the
common unversioned form) makes the tuple unpacking in get_requirement_version
raise an uncaught ValueError, so the docker image resolution fails instead
of downgrading to the latest tag with a warning, refuting the claim as
stated for this input. -/
theorem docker_image_malformed_requires_dist_fails :
    get_docker_image_from_dependency distsBad "pollination-x" "honeybee-radiance" "ladybugtools"
      = .error (.valueError "not enough values to unpack") := rfl

/-- C7 amended: when the requirement information is readable — from a
requires.txt metadata file, or from Requires-Dist entries that all carry a
parenthesized version so that the parsing loop succeeds — a dependency
whose version is pinned there resolves to the pinned tag
ladybugtools/dependency:version with no warning, and a dependency missing
from the requirements downgrades to the latest tag with a surfaced warning
carrying the assertion failure; a malformed unpinnable Requires-Dist entry
instead raises an uncaught ValueError. -/
theorem docker_image_pin_or_latest :
    ∀ (dists : String → Option PkgReqs) (package dependency owner : String)
      (d : PkgReqs),
      dists (pyReplace package "pollination." "pollination_") = some d →
      (∀ rt, d.requiresTxt = some rt →
        (∀ v, dictGet (rt.foldl (fun acc p => dictSet acc p.1 (cleanSpecifier p.2)) [])
            (pyReplace dependency "_" "-") = some v →
          get_docker_image_from_dependency dists package dependency owner =
            .ok { image := "ladybugtools/" ++ dependency ++ ":" ++ v, warning := none }) ∧
        (dictGet (rt.foldl (fun acc p => dictSet acc p.1 (cleanSpecifier p.2)) [])
            (pyReplace dependency "_" "-") = none →
          get_docker_image_from_dependency dists package dependency owner =
            .ok { image := "ladybugtools/" ++ dependency ++ ":latest",
                  warning := some (.assertionError
                    (pyReplace dependency "_" "-" ++ " is not a requirement for " ++
                      package ++ ".")) })) ∧
      (∀ reqs, d.requiresTxt = none →
        d.requiresDist.foldlM requiresDistStep [] = .ok reqs →
        (∀ v, dictGet reqs (pyReplace dependency "_" "-") = some v →
          get_docker_image_from_dependency dists package dependency owner =
            .ok { image := "ladybugtools/" ++ dependency ++ ":" ++ v, warning := none }) ∧
        (dictGet reqs (pyReplace dependency "_" "-") = none →
          get_docker_image_from_dependency dists package dependency owner =
            .ok { image := "ladybugtools/" ++ dependency ++ ":latest",
                  warning := some (.assertionError
                    (pyReplace dependency "_" "-" ++ " is not a requirement for " ++
                      package ++ ".")) })) := by
  intro dists package dependency owner d hd
  constructor
  · intro rt hrt
    constructor
    · intro v hv
      unfold get_docker_image_from_dependency get_requirement_version
      dsimp only
      rw [hd]
      dsimp only
      rw [hrt]
      dsimp only
      rw [hv]
    · intro hv
      unfold get_docker_image_from_dependency get_requirement_version
      dsimp only
      rw [hd]
      dsimp only
      rw [hrt]
      dsimp only
      rw [hv]
  · intro reqs hnone hfold
    constructor
    · intro v hv
      unfold get_docker_image_from_dependency get_requirement_version
      dsimp only
      rw [hd]
      dsimp only
      rw [hnone]
      dsimp only
      rw [hfold]
      dsimp only
      rw [hv]
    · intro hv
      unfold get_docker_image_from_dependency get_requirement_version
      dsimp only
      rw [hd]
      dsimp only
      rw [hnone]
      dsimp only
      rw [hfold]
      dsimp only
      rw [hv]

/-- C7 witness: through a requires.txt and equally through versioned
Requires-Dist entries, a pinned honeybee-radiance dependency resolves to
its tag and an unpinned one resolves to latest with a warning. -/
theorem docker_image_pin_or_latest_witness :
    get_docker_image_from_dependency distsPinned "pollination-hr" "honeybee-radiance" "o"
      = .ok { image := "ladybugtools/honeybee-radiance:0.5.2", warning := none } ∧
    get_docker_image_from_dependency distsUnpinned "pollination-hr" "honeybee-radiance" "o"
      = .ok { image := "ladybugtools/honeybee-radiance:latest",
              warning := some (.assertionError
                "honeybee-radiance is not a requirement for pollination-hr.") } ∧
    get_docker_image_from_dependency distsDistPinned "pollination-hr" "honeybee-radiance" "o"
      = .ok { image := "ladybugtools/honeybee-radiance:0.5.2", warning := none } ∧
    get_docker_image_from_dependency distsDistUnpinned "pollination-hr" "honeybee-radiance" "o"
      = .ok { image := "ladybugtools/honeybee-radiance:latest",
              warning := some (.assertionError
                "honeybee-radiance is not a requirement for pollination-hr.") } := by
  refine ⟨?_, ?_, ?_, ?_⟩
  · exact ((docker_image_pin_or_latest distsPinned "pollination-hr" "honeybee-radiance" "o"
      { requiresTxt := some [("honeybee-radiance", ">=0.5.2")], requiresDist := [] }
      rfl).1 [("honeybee-radiance", ">=0.5.2")] rfl).1 "0.5.2" rfl
  · exact ((docker_image_pin_or_latest distsUnpinned "pollination-hr" "honeybee-radiance" "o"
      { requiresTxt := some [("other-dep", ">=1.0.0")], requiresDist := [] }
      rfl).1 [("other-dep", ">=1.0.0")] rfl).2 rfl
  · exact ((docker_image_pin_or_latest distsDistPinned "pollination-hr" "honeybee-radiance" "o"
      { requiresTxt := none, requiresDist := ["honeybee-radiance (>=0.5.2)"] }
      rfl).2 [("honeybee-radiance", "0.5.2")] rfl rfl).1 "0.5.2" rfl
  · exact ((docker_image_pin_or_latest distsDistUnpinned "pollination-hr" "honeybee-radiance" "o"
      { requiresTxt := none, requiresDist := ["other-dep (>=1.0.0)"] }
      rfl).2 [("other-dep", "1.0.0")] rfl rfl).2 rfl

/-- C8 counterexample: initializing a location that holds an artifact file
but no index file creates the index regenerated from the folder scan, which
is not empty — refuting the claim that an empty index is created whenever
the index file is absent. -/
theorem init_repo_stray_artifact_nonempty_index :
    fsStray.indexFile = none ∧
    (_init_repo "/home/u" fsStray).2.indexFile = some ⟨["a.tgz"], []⟩ ∧
    (_init_repo "/home/u" fsStray).2.indexFile ≠ some ⟨[], []⟩ := by
  exact ⟨rfl, rfl, by decide⟩

/-- C8 amended: repository initialization ensures the index file and both
stores exist, keeps an existing index file untouched, creates the index
only when it is absent — regenerated from a scan of the repository folder,
hence empty exactly for a location whose stores hold no artifact files —
never touches the artifact stores, and running it a second time returns the
same path and leaves the state unchanged. -/
theorem init_repo_idempotent (home : String) (fs : RepoFS) :
    ((_init_repo home fs).2.root ∧ (_init_repo home fs).2.pluginsDir ∧
      (_init_repo home fs).2.recipesDir ∧ (_init_repo home fs).2.indexFile.isSome) ∧
    (∀ i, fs.indexFile = some i → (_init_repo home fs).2.indexFile = some i) ∧
    (fs.indexFile = none →
      (_init_repo home fs).2.indexFile =
        some ⟨fs.pluginFiles.map Prod.fst, fs.recipeFiles.map Prod.fst⟩) ∧
    ((_init_repo home fs).2.pluginFiles = fs.pluginFiles ∧
      (_init_repo home fs).2.recipeFiles = fs.recipeFiles) ∧
    ((_init_repo home fs).1 = repoPath home ∧
      _init_repo home ((_init_repo home fs).2) = _init_repo home fs) := by
  refine ⟨?_, ?_, ?_, ⟨init_repo_pluginFiles home fs, init_repo_recipeFiles home fs⟩,
    ⟨rfl, init_repo_twice home fs⟩⟩
  · exact ⟨by cases h : fs.indexFile <;> simp [_init_repo, h],
      by cases h : fs.indexFile <;> simp [_init_repo, h],
      by cases h : fs.indexFile <;> simp [_init_repo, h],
      init_repo_indexFile_isSome home fs⟩
  · exact fun i h => init_repo_indexFile_some home fs i h
  · intro h
    simp [_init_repo, from_folder, h]

/-- C8 witness: initializing a fresh location creates the empty index and a
second initialization changes nothing. -/
theorem init_repo_idempotent_witness :
    (_init_repo "/home/u" fsEmpty).2.indexFile = some ⟨[], []⟩ ∧
    _init_repo "/home/u" ((_init_repo "/home/u" fsEmpty).2) =
      _init_repo "/home/u" fsEmpty := by
  have h := init_repo_idempotent "/home/u" fsEmpty
  exact ⟨h.2.2.1 rfl, h.2.2.2.2.2⟩

/-- C1: whenever the package entry point succeeds, the index file it leaves
behind enumerates exactly the artifact files physically present in the two
stores of the final repository state — no orphan index entries and no
un-indexed files. -/
theorem package_reindex_exactly_enumerates (env : Env) (home : String)
    (st : ProcState) (name : String) (readme : Option String) (fs : RepoFS) :
    (package env home st name readme fs).error = none →
    (package env home st name readme fs).fs.indexFile =
      some ⟨(package env home st name readme fs).fs.pluginFiles.map Prod.fst,
            (package env home st name readme fs).fs.recipeFiles.map Prod.fst⟩ := by
  intro h
  unfold package at h ⊢
  dsimp only at h ⊢
  cases hres : (load env home ((_init_repo home fs).2) st name).result with
  | error e => simp [hres] at h
  | ok qb_obj =>
    rw [hres] at h
    dsimp only at h ⊢
    cases hpr : env.packageResource qb_obj (env.readmeOf name) with
    | error e => simp [hpr] at h
    | ok v =>
      obtain ⟨pv, bytes⟩ := v
      cases qb_obj <;> rfl

/-- C1 witness: packaging the concrete plugin package m into a fresh
repository leaves an index listing exactly the one artifact written. -/
theorem package_reindex_exactly_enumerates_witness :
    (package envOk "/home/u" ⟨[]⟩ "m" none fsEmpty).fs.indexFile =
      some ⟨["m-1.0.0.tgz"], []⟩ := by
  have h := package_reindex_exactly_enumerates envOk "/home/u" ⟨[]⟩ "m" none fsEmpty rfl
  exact h

/-- C2 counterexample: packaging the plugin m into a fresh repository with a
failing serialization raises the wrapping ValueError, yet the repository is
not left exactly as before the call — the index file, absent beforehand, now
exists, because initialization runs before the serialization attempt. -/
theorem package_failure_modifies_fresh_repo :
    (package envFail "/home/u" ⟨[]⟩ "m" none fsEmpty).error =
      some (.valueErrorWrap "Failed to package m plugin" .fileNotFoundError) ∧
    fsEmpty.indexFile = none ∧
    (package envFail "/home/u" ⟨[]⟩ "m" none fsEmpty).fs.indexFile = some ⟨[], []⟩ := by
  exact ⟨rfl, rfl, rfl⟩

/-- C2 amended: when loading succeeds and serialization raises, package
fails with a ValueError wrapping the underlying cause, the artifact stores
are unmodified, any existing index file is unmodified, and the repository
state equals the post-initialization state — initialization having possibly
created the directory structure and an index file when they were absent. -/
theorem package_serialization_failure_preserves_stores (env : Env) (home : String)
    (st : ProcState) (name : String) (readme : Option String) (fs : RepoFS)
    (obj : QBDef) (e : PyErr) :
    (load env home ((_init_repo home fs).2) st name).result = .ok obj →
    env.packageResource obj (env.readmeOf name) = .error e →
    (package env home st name readme fs).error =
      some (.valueErrorWrap ("Failed to package " ++ name ++ " " ++ qbType obj) e) ∧
    (package env home st name readme fs).fs = (_init_repo home fs).2 ∧
    (package env home st name readme fs).fs.pluginFiles = fs.pluginFiles ∧
    (package env home st name readme fs).fs.recipeFiles = fs.recipeFiles ∧
    (∀ i, fs.indexFile = some i →
      (package env home st name readme fs).fs.indexFile = some i) := by
  intro hload hpr
  have hfs : (package env home st name readme fs).fs = (_init_repo home fs).2 := by
    unfold package
    dsimp only
    rw [hload]
    dsimp only
    rw [hpr]
    exact load_fs_initialized env home fs st name
  refine ⟨?_, hfs, ?_, ?_, ?_⟩
  · unfold package
    dsimp only
    rw [hload]
    dsimp only
    rw [hpr]
  · rw [hfs]; exact init_repo_pluginFiles home fs
  · rw [hfs]; exact init_repo_recipeFiles home fs
  · intro i hi
    rw [hfs]
    exact init_repo_indexFile_some home fs i hi

/-- C2 witness: the amended statement at the concrete failing environment,
starting from an already initialized repository, where the state is fully
preserved. -/
theorem package_serialization_failure_preserves_stores_witness :
    (package envFail "/home/u" ⟨[]⟩ "m" none
        (⟨true, true, true, some ⟨[], []⟩, [], []⟩ : RepoFS)).error =
      some (.valueErrorWrap "Failed to package m plugin" .fileNotFoundError) ∧
    (package envFail "/home/u" ⟨[]⟩ "m" none
        (⟨true, true, true, some ⟨[], []⟩, [], []⟩ : RepoFS)).fs.indexFile =
      some ⟨[], []⟩ := by
  have h := package_serialization_failure_preserves_stores envFail "/home/u" ⟨[]⟩ "m"
    none (⟨true, true, true, some ⟨[], []⟩, [], []⟩ : RepoFS)
    (.plugin { config := "cfg", metadata := [], functions := [] }) .fileNotFoundError
    rfl rfl
  exact ⟨h.1, h.2.2.2.2 ⟨[], []⟩ rfl⟩

/-- C3: whenever the entry point factory of a recipe module yields an entry
DAG, assembling the recipe succeeds and its flow starts with the entry DAG
renamed to main, followed by the collected nested DAGs in collection
order. -/
theorem load_recipe_entry_dag_renamed_main_first (env : Env) (home : String)
    (fs : RepoFS) (name : String) (info : QBInfo)
    (factory : Unit → Option DAGObj) (d : DAGObj) :
    info.entryPoint = some factory →
    factory () = some d →
    ∃ r info2 fs2, _load_recipe env home fs name info = (.ok r, info2, fs2) ∧
      r.flow = { d.queenbee with name := "main" } ::
        d._dependencies.dag.map (fun s => s.queenbee) := by
  intro hf hd
  unfold _load_recipe _get_meta_data
  rw [hf]
  dsimp only
  rw [hd]
  dsimp only
  exact ⟨_, _, _, rfl, rfl⟩

/-- C3 witness: the concrete recipe module with entry DAG entry and one
nested DAG sub assembles into a flow headed by main. -/
theorem load_recipe_entry_dag_renamed_main_first_witness :
    ∃ r info2 fs2,
      _load_recipe envOk "/home/u" fsEmpty "m" infoRecipe = (.ok r, info2, fs2) ∧
      r.flow = (⟨"main", "b"⟩ : QBDag) :: [(⟨"sub", "c"⟩ : QBDag)] := by
  exact load_recipe_entry_dag_renamed_main_first envOk "/home/u" fsEmpty "m"
    infoRecipe entryFactory dagEntry rfl rfl

/-- C4: a recipe module whose __pollination__ dictionary has no entry_point
key makes _load_recipe apply None and raise TypeError — not the assertion
whose message names the missing entry point key, which is unreachable for
this input. -/
theorem load_recipe_missing_entry_point_type_error :
    (_load_recipe envOk "/home/u" fsEmpty "daylight-recipe" infoNoEntry).1 =
      .error (.typeError "NoneType object is not callable") := rfl

/-- C6: when the entry DAG carries collector-produced dependency records
(deduplicated by name, as the spec-modelled collector guarantees), the
assembled Recipe has no two dependency entries sharing kind and name. -/
theorem recipe_dependencies_pairwise_distinct (env : Env) (home : String)
    (fs : RepoFS) (name : String) (info : QBInfo)
    (factory : Unit → Option DAGObj) (d : DAGObj) (ps rs : List DepInfo)
    (r : Recipe) (info2 : QBInfo) (fs2 : RepoFS) :
    info.entryPoint = some factory →
    factory () = some d →
    d._dependencies.plugin = collectDedupByName ps →
    d._dependencies.recipe = collectDedupByName rs →
    _load_recipe env home fs name info = (.ok r, info2, fs2) →
    r.dependencies.Pairwise (fun a b => ¬(a.kind = b.kind ∧ a.name = b.name)) := by
  intro hf hd hp hr hload
  unfold _load_recipe _get_meta_data at hload
  rw [hf] at hload
  dsimp only at hload
  rw [hd] at hload
  dsimp only at hload
  injection hload with h1 h23
  injection h1 with hr2
  subst hr2
  dsimp only
  rw [hp, hr, List.pairwise_append]
  refine ⟨?_, ?_, ?_⟩
  · rw [List.pairwise_map]
    have hnd := collectDedupByName_names_nodup ps
    have hpw := List.pairwise_map.mp hnd
    exact hpw.imp (fun hne hand => hne hand.2)
  · rw [List.pairwise_map]
    have hnd := collectDedupByName_names_nodup rs
    have hpw := List.pairwise_map.mp hnd
    exact hpw.imp (fun hne hand => hne hand.2)
  · intro a ha b hb
    obtain ⟨p, -, hpa⟩ := List.mem_map.1 ha
    obtain ⟨q, -, hqb⟩ := List.mem_map.1 hb
    intro hand
    rw [← hpa, ← hqb] at hand
    exact DependencyKind.noConfusion hand.1

/-- C6 witness: an entry DAG referencing plugin p twice through the
collector yields exactly one dependency record and the assembled dependency
list is pairwise distinct on kind and name. -/
theorem recipe_dependencies_pairwise_distinct_witness :
    List.Pairwise (fun a b => ¬(a.kind = b.kind ∧ a.name = b.name))
      [Dependency.mk .plugin "p" "1" (repoUri "/home/u")] := by
  exact recipe_dependencies_pairwise_distinct envOk "/home/u" fsEmpty "m" infoDup
    dupFactory dagDup [⟨"p", "1"⟩, ⟨"p", "2"⟩] []
    { metadata := []
      dependencies := [Dependency.mk .plugin "p" "1" (repoUri "/home/u")]
      flow := [⟨"main", "b"⟩] }
    { config := none, entryPoint := none, fields := [] }
    (_init_repo "/home/u" fsEmpty).2
    rfl rfl rfl rfl rfl

/-- C9: the readme argument of the package entry point is never consulted —
packaging with any two readme arguments produces identical results, the
serialized readme being the one fetched from the installed package
metadata. -/
theorem package_ignores_readme_argument (env : Env) (home : String)
    (st : ProcState) (name : String) (r1 r2 : Option String) (fs : RepoFS) :
    package env home st name r1 fs = package env home st name r2 fs := rfl

/-- C10: loading a plugin package pops the config key from the shared
__pollination__ dictionary of the module, so the first load takes the
plugin branch, leaves the module without a config entry, and a second load
of the same package in the same process takes the recipe branch. -/
theorem get_meta_data_pop_makes_second_load_recipe_branch (env : Env)
    (home : String) (fs : RepoFS) (name : String) (m : PyModule)
    (info : QBInfo) (cfg : String) :
    env.modules (pyReplace name "-" "_") = some m →
    m.pollination = some info →
    info.config = some cfg →
    (load env home fs ⟨[]⟩ name).branch = some .plugin ∧
    ((stateLookup (load env home fs ⟨[]⟩ name).state (pyReplace name "-" "_")).bind
      PyModule.pollination).map QBInfo.config = some none ∧
    (load env home (load env home fs ⟨[]⟩ name).fs
      (load env home fs ⟨[]⟩ name).state name).branch = some .recipe := by
  intro hm hp hc
  set k := pyReplace name "-" "_" with hk
  set info2 : QBInfo :=
    { config := none, entryPoint := info.entryPoint
      fields := mergePackageData info.fields (env.packageData k) } with hinfo2
  set m2 : PyModule := ⟨some info2⟩ with hm2
  have hkey : import_module env ⟨[]⟩ name = .ok (k, m, stateSet ⟨[]⟩ k m) := by
    unfold import_module getModule stateLookup
    simp only [List.find?_nil]
    rw [← hk, hm]
    rfl
  have hss1 : stateSet (⟨[]⟩ : ProcState) k m = ⟨[(k, m)]⟩ := by
    simp [stateSet]
  have hss2 : stateSet (⟨[(k, m)]⟩ : ProcState) k m2 = ⟨[(k, m2)]⟩ := by
    simp [stateSet]
  have hsl : stateLookup (⟨[(k, m2)]⟩ : ProcState) k = some m2 := by
    unfold stateLookup
    rw [List.find?_cons_of_pos _ (by simp)]
    rfl
  have h1 : load env home fs ⟨[]⟩ name =
      ⟨some .plugin,
       .ok (.plugin { config := cfg
                      metadata := mergePackageData info.fields (env.packageData k)
                      functions := env.functionsOf k }),
       stateSet (stateSet ⟨[]⟩ k m) k m2, fs⟩ := by
    unfold load _load_plugin _get_meta_data
    rw [hkey]
    dsimp only
    rw [hp]
    dsimp only
    rw [hc]
    rfl
  refine ⟨?_, ?_, ?_⟩
  · rw [h1]
  · rw [h1]
    dsimp only
    rw [hss1, hss2, hsl]
    rfl
  · rw [h1]
    dsimp only
    rw [hss1, hss2]
    have hkey2 : import_module env ⟨[(k, m2)]⟩ name =
        .ok (k, m2, ⟨[(k, m2)]⟩) := by
      unfold import_module getModule
      dsimp only
      rw [← hk, hsl]
    unfold load
    rw [hkey2]
    dsimp only
    rcases h3 : _load_recipe env home fs k info2 with ⟨res, i3, f3⟩
    cases res <;> rfl

/-- C10 witness: loading the concrete plugin package pkg takes the plugin
branch the first time and the recipe branch the second time in the same
process. -/
theorem get_meta_data_pop_makes_second_load_recipe_branch_witness :
    (load envShared "/home/u" fsEmpty ⟨[]⟩ "pkg").branch = some .plugin ∧
    (load envShared "/home/u" (load envShared "/home/u" fsEmpty ⟨[]⟩ "pkg").fs
      (load envShared "/home/u" fsEmpty ⟨[]⟩ "pkg").state "pkg").branch = some .recipe := by
  have h := get_meta_data_pop_makes_second_load_recipe_branch envShared "/home/u" fsEmpty
    "pkg" ⟨some infoPlugin⟩ infoPlugin "cfg" rfl rfl rfl
  exact ⟨h.1, h.2.2⟩
